import Mathlib

/-!
Shallow embedding of the houdiniswap-sdk core (client.py, models.py) for
checking the repository's specification claims.

Modelling conventions:
* Python exceptions become an `Except HS.PyExc _` result; each constructor of
  `HS.PyExc` names one Python exception class that the embedded code can raise.
* `decimal.Decimal` values are embedded as `HS.Dec`: a finite decimal is a
  coefficient/exponent pair with value `m * 10 ^ e`; the special values
  Infinity and NaN are separate constructors, as in the `decimal` module.
* A Python `float` is embedded by its shortest round-trip decimal
  representation, i.e. the string `str(x)` / `repr(x)` produces for it
  (`"0.1"`, `"1e-05"`, `"inf"`, `"nan"`, ...).  The only operations the
  embedded code applies to a float are `str(x)` and sign comparison with 0,
  and both factor through that representation.
* Dynamically typed Python values (JSON payloads, arguments of the public
  client methods) are embedded as `HS.PyVal`.
-/

namespace HS

/-- Exception classes that the embedded code can raise.  `validationError`,
`apiError`, `authenticationError`, `networkError` and `houdiniSwapError` are
the SDK's own classes from exceptions.py; `invalidOperation` is
`decimal.InvalidOperation`; `valueError`, `typeError` and `attributeError`
are the corresponding builtins. -/
inductive PyExc where
  | validationError
  | apiError
  | authenticationError
  | networkError
  | houdiniSwapError
  | invalidOperation
  | valueError
  | typeError
  | attributeError
  deriving DecidableEq, Repr

/-- Embedding of `decimal.Decimal`: a finite decimal `fin m e` has the exact
value `m * 10 ^ e`; `inf neg` is (negative when `neg`) Infinity; `nan sig` is
a (signaling when `sig`) NaN. -/
inductive Dec where
  | fin (m : Int) (e : Int)
  | inf (neg : Bool)
  | nan (sig : Bool)
  deriving DecidableEq, Repr

/-- The exact rational value of a finite decimal; `none` for Infinity/NaN. -/
def Dec.val : Dec → Option ℚ
  | .fin m e => some ((m : ℚ) * (10 : ℚ) ^ e)
  | _ => none

/-- Python `d <= 0` on a Decimal: ordered comparison, which raises
`InvalidOperation` (`none`) when `d` is a NaN. -/
def Dec.le0 : Dec → Option Bool
  | .fin m e => some (decide ((m : ℚ) * (10 : ℚ) ^ e ≤ 0))
  | .inf neg => some neg
  | .nan _ => none

/-- Python `d1 == d2` on Decimals: numeric equality; any comparison with a
NaN is `False` (equality does not raise). -/
def Dec.eqPy : Dec → Dec → Bool
  | .fin m e, .fin m' e' => decide ((m : ℚ) * (10 : ℚ) ^ e = (m' : ℚ) * (10 : ℚ) ^ e')
  | .inf a, .inf b => a == b
  | _, _ => false

/-- Characters `str.strip()` removes from both ends of a Python string. -/
def isPySpace (c : Char) : Bool :=
  c = ' ' || c = '\t' || c = '\n' || c = '\r' || c = '\x0b' || c = '\x0c'

/-- `str.strip()` on the character list of a Python string. -/
def pyStripList (l : List Char) : List Char :=
  ((l.dropWhile isPySpace).reverse.dropWhile isPySpace).reverse

/-- `str.strip()` on a Python string. -/
def pyStrip (s : String) : String :=
  (pyStripList s.data).asString

def isDigitChar (c : Char) : Bool := '0' ≤ c && c ≤ '9'

/-- Accumulate a digit list into the natural number it denotes. -/
def digitsToNat (l : List Char) : Nat :=
  l.foldl (fun a c => a * 10 + (c.toNat - 48)) 0

/-- Consume an optional leading sign; returns (isNegative, rest). -/
def parseSign : List Char → Bool × List Char
  | '+' :: r => (false, r)
  | '-' :: r => (true, r)
  | l => (false, l)

/-- Split at the first `e`/`E` (exponent marker of the decimal grammar). -/
def splitExp : List Char → List Char × Option (List Char)
  | [] => ([], none)
  | c :: r =>
    if c = 'e' ∨ c = 'E' then ([], some r)
    else
      let (m, ex) := splitExp r
      (c :: m, ex)

/-- Parse the digit part of an exponent (optional sign, then digits). -/
def parseSignedDigits (l : List Char) : Option Int :=
  let (neg, r) := parseSign l
  if r ≠ [] ∧ r.all isDigitChar then
    some ((if neg then -1 else 1) * (digitsToNat r : Int))
  else none

/-- Parse an unsigned mantissa `digits[.digits]` / `.digits`; returns the
coefficient and the number of fractional digits. -/
def parseMantissa (l : List Char) : Option (Nat × Nat) :=
  match l.splitOn '.' with
  | [m] => if m ≠ [] ∧ m.all isDigitChar then some (digitsToNat m, 0) else none
  | [i, f] =>
    let d := i ++ f
    if d ≠ [] ∧ d.all isDigitChar then some (digitsToNat d, f.length) else none
  | _ => none

/-- Keyword followed by an optional all-digit NaN payload. -/
def nanRest (low : List Char) (kw : List Char) : Bool :=
  kw.isPrefixOf low && (low.drop kw.length).all isDigitChar

/-- Core of the `decimal.Decimal(str)` grammar, after whitespace stripping
and underscore removal: optional sign, then either a (case-insensitive)
`inf`/`infinity`/`nan`/`snan` keyword or `digits[.digits][(e|E)[sign]digits]`. -/
def parseDecCore (l : List Char) : Option Dec :=
  let (neg, r) := parseSign l
  let low := r.map Char.toLower
  if low = "inf".data ∨ low = "infinity".data then some (.inf neg)
  else if nanRest low "nan".data then some (.nan false)
  else if nanRest low "snan".data then some (.nan true)
  else
    match splitExp r with
    | (mant, ex) =>
      match parseMantissa mant with
      | none => none
      | some (coeff, fracLen) =>
        match (match ex with | none => some 0 | some el => parseSignedDigits el) with
        | none => none
        | some e =>
          some (.fin ((if neg then -1 else 1) * (coeff : Int)) (e - (fracLen : Int)))

/-- `decimal.Decimal(s)` on a string: strip surrounding whitespace, remove
underscores throughout, then parse; `none` models a raised
`decimal.InvalidOperation`. -/
def parseDecimal (s : String) : Option Dec :=
  parseDecCore ((pyStripList s.data).filter (fun c => c ≠ '_'))

/-- Embedding of a dynamically typed Python value (arguments of the public
client methods and deserialized JSON payloads).  `pyFloat r` is the float
whose `str()`/`repr()` form is `r`; `pyDict` is an insertion-ordered mapping
with string keys. -/
inductive PyVal where
  | pyNone
  | pyBool (b : Bool)
  | pyInt (n : Int)
  | pyFloat (r : String)
  | pyDec (d : Dec)
  | pyStr (s : String)
  | pyList (l : List PyVal)
  | pyDict (l : List (String × PyVal))
  deriving Repr

/-- `data[k]` lookup in an insertion-ordered string-keyed mapping. -/
def dictLookup (k : String) : List (String × α) → Option α
  | [] => none
  | (k', v) :: rest => if k' = k then some v else dictLookup k rest

/-- `data.get(k, default)`. -/
def dictGetD (d : List (String × PyVal)) (k : String) (dflt : PyVal) : PyVal :=
  (dictLookup k d).getD dflt

/-- `k in data`. -/
def dictContains (d : List (String × PyVal)) (k : String) : Bool :=
  (dictLookup k d).isSome

/-- `self._token_cache[key] = value`: Python dict assignment replaces an
existing key in place, otherwise appends at the end. -/
def dictStore (k : String) (v : α) : List (String × α) → List (String × α)
  | [] => [(k, v)]
  | (k', v') :: rest =>
    if k' = k then (k, v) :: rest else (k', v') :: dictStore k v rest

/-- Python truthiness of an embedded value (`bool(v)`). -/
def pyTruthy : PyVal → Bool
  | .pyNone => false
  | .pyBool b => b
  | .pyInt n => n ≠ 0
  | .pyFloat r =>
    match parseDecimal r with
    | some (.fin m _) => m ≠ 0
    | _ => true
  | .pyDec d =>
    match d with
    | .fin m _ => m ≠ 0
    | _ => true
  | .pyStr s => ¬ s.isEmpty
  | .pyList l => ¬ l.isEmpty
  | .pyDict l => ¬ l.isEmpty

/-- `Decimal(str(v))` for an embedded value `v`, the composition used by the
decoders: `str` of an int is its numeral and `Decimal` of a numeral is exact,
so the int branch is the exact decimal `fin n 0`; `str` of a float is its
round-trip repr, which is the float's embedding; `str` of a Decimal
round-trips exactly; `str` of None/booleans/lists/dicts (`"None"`, `"True"`,
`"[...]"`, ...) is never a valid decimal numeral, so `Decimal` raises
`InvalidOperation` (`none`). -/
def decimalOfStrOf : PyVal → Option Dec
  | .pyInt n => some (.fin n 0)
  | .pyFloat r => parseDecimal r
  | .pyStr s => parseDecimal s
  | .pyDec d => some d
  | _ => none

/-! ### client.py: input validation and normalization -/

/-- The fixed forbidden-character set of `_sanitize_input`. -/
def dangerousChars : List Char := ['\n', '\r', '\t', '\x00']

/-- `char in sanitized` for each dangerous char. -/
def containsDangerous (s : String) : Bool :=
  s.data.any (fun c => dangerousChars.contains c)

/-- `HoudiniSwapClient._sanitize_input` (client.py): non-strings are
rejected; the string is stripped; an empty result or a remaining dangerous
character raises ValidationError; otherwise the stripped string is returned. -/
def sanitize_input (v : PyVal) : Except PyExc String :=
  match v with
  | .pyStr s =>
    let sanitized := pyStrip s
    if sanitized.isEmpty then .error .validationError
    else if containsDangerous sanitized then .error .validationError
    else .ok sanitized
  | _ => .error .validationError

/-- `HoudiniSwapClient._validate_amount` (client.py).  A Python `bool` is an
`int` (`isinstance(True, int)`), so it takes the numeric branch with values
1/0.  In the string branch the `Decimal(amount)` parse failure and the
`InvalidOperation` raised by comparing a NaN are both caught and re-raised as
ValidationError, while the `amount <= 0` ValidationError is not caught
(ValidationError is not among `ValueError, InvalidOperation, TypeError`).
In the numeric branch a NaN Decimal makes `amount <= 0` raise an uncaught
`decimal.InvalidOperation`. -/
def validate_amount (v : PyVal) : Except PyExc Unit :=
  match v with
  | .pyStr s =>
    match parseDecimal s with
    | none => .error .validationError
    | some d =>
      match d.le0 with
      | none => .error .validationError
      | some true => .error .validationError
      | some false => .ok ()
  | .pyBool b => if b then .ok () else .error .validationError
  | .pyInt n => if n ≤ 0 then .error .validationError else .ok ()
  | .pyFloat r =>
    match parseDecimal r with
    | some (.fin m e) =>
      if (m : ℚ) * (10 : ℚ) ^ e ≤ 0 then .error .validationError else .ok ()
    | some (.inf neg) => if neg then .error .validationError else .ok ()
    | _ => .ok ()
  | .pyDec d =>
    match d.le0 with
    | none => .error .invalidOperation
    | some true => .error .validationError
    | some false => .ok ()
  | _ => .error .validationError

/-- `HoudiniSwapClient._normalize_amount_to_decimal` (client.py): a Decimal
passes through; an int or float goes through `Decimal(str(amount))` with no
enclosing try (a failure propagates as `decimal.InvalidOperation` — this hits
booleans, whose `str` is `"True"`/`"False"`); a string goes through
`Decimal(amount)` with the failure re-raised as ValidationError; any other
type raises ValidationError. -/
def normalize_amount_to_decimal (v : PyVal) : Except PyExc Dec :=
  match v with
  | .pyDec d => .ok d
  | .pyBool _ =>
    match decimalOfStrOf v with
    | some d => .ok d
    | none => .error .invalidOperation
  | .pyInt n => .ok (.fin n 0)
  | .pyFloat r =>
    match parseDecimal r with
    | some d => .ok d
    | none => .error .invalidOperation
  | .pyStr s =>
    match parseDecimal s with
    | some d => .ok d
    | none => .error .validationError
  | _ => .error .validationError

/-! ### client.py: the request engine -/

/-- One transport-level outcome of `self.session.request(...)`: an HTTP
response with a status code and decoded body, a
`requests.exceptions.RequestException`, or any other exception raised during
the attempt. -/
inductive Resp where
  | http (status : Nat) (body : PyVal)
  | transportError
  | unexpected
  deriving Repr

/-- Observable outcome of `_request`: the decoded JSON body, or one of the
typed exceptions.  `exhausted` is a model artifact meaning the supplied
response sequence was shorter than the number of attempts made. -/
inductive ReqOutcome where
  | ok (body : PyVal)
  | apiError (status : Nat)
  | authError
  | networkError
  | houdiniError
  | exhausted
  deriving Repr

/-- `retryable_statuses` in `_request` (429, 500, 502, 503, 504). -/
def retryableStatuses : List Nat := [429, 500, 502, 503, 504]

/-- The attempt loop of `HoudiniSwapClient._request` (client.py), over an
explicit sequence of transport outcomes, one consumed per attempt; the
second component counts transport invocations made.  Each iteration: 401 ⇒
AuthenticationError immediately; 429 ⇒ retry (with backoff) while
`attempt < max_retries`, else APIError; other retryable statuses ⇒ retry
while `attempt < max_retries`, else fall through to the generic `>= 400`
handler; other `>= 400` ⇒ APIError immediately; `< 400` ⇒ return the body;
transport exceptions ⇒ retry, else NetworkError; unexpected exceptions ⇒
retry, else HoudiniSwapError.  Backoff sleeps have no observable effect on
the outcome and are omitted. -/
def reqGo (maxRetries : Nat) : Nat → List Resp → ReqOutcome × Nat
  | _, [] => (.exhausted, 0)
  | attempt, r :: rest =>
    match r with
    | .http status body =>
      if status = 401 then (.authError, 1)
      else if status = 429 then
        if attempt < maxRetries then
          let (o, n) := reqGo maxRetries (attempt + 1) rest
          (o, n + 1)
        else (.apiError 429, 1)
      else if status ∈ retryableStatuses ∧ attempt < maxRetries then
        let (o, n) := reqGo maxRetries (attempt + 1) rest
        (o, n + 1)
      else if 400 ≤ status then (.apiError status, 1)
      else (.ok body, 1)
    | .transportError =>
      if attempt < maxRetries then
        let (o, n) := reqGo maxRetries (attempt + 1) rest
        (o, n + 1)
      else (.networkError, 1)
    | .unexpected =>
      if attempt < maxRetries then
        let (o, n) := reqGo maxRetries (attempt + 1) rest
        (o, n + 1)
      else (.houdiniError, 1)

/-- `HoudiniSwapClient._request`, starting at attempt 0. -/
def request (maxRetries : Nat) (responses : List Resp) : ReqOutcome × Nat :=
  reqGo maxRetries 0 responses

/-! ### models.py: typed records

The dataclasses perform no per-field type checking, so fields whose payload
value is stored verbatim are embedded as `PyVal` (with the same
`data.get(key, default)` defaults as the source). -/

/-- `TransactionStatus` (models.py): the closed status enumeration. -/
inductive TransactionStatus where
  | NEW | WAITING | CONFIRMING | EXCHANGING | ANONYMIZING
  | FINISHED | EXPIRED | FAILED | REFUNDED | DELETED
  deriving DecidableEq, Repr

/-- The integer value of each `TransactionStatus` member. -/
def TransactionStatus.code : TransactionStatus → Int
  | .NEW => -1
  | .WAITING => 0
  | .CONFIRMING => 1
  | .EXCHANGING => 2
  | .ANONYMIZING => 3
  | .FINISHED => 4
  | .EXPIRED => 5
  | .FAILED => 6
  | .REFUNDED => 7
  | .DELETED => 8

/-- Enum value lookup `TransactionStatus(code)` on an integer: the member
with that value, or a raised ValueError (`none`). -/
def statusOfCode (n : Int) : Option TransactionStatus :=
  if n = -1 then some .NEW
  else if n = 0 then some .WAITING
  else if n = 1 then some .CONFIRMING
  else if n = 2 then some .EXCHANGING
  else if n = 3 then some .ANONYMIZING
  else if n = 4 then some .FINISHED
  else if n = 5 then some .EXPIRED
  else if n = 6 then some .FAILED
  else if n = 7 then some .REFUNDED
  else if n = 8 then some .DELETED
  else none

/-- `TransactionStatus(status_code)` on a dynamically typed payload value:
`bool` is an int with value 1/0; a float matches a member when its value is
that member's integer value (`4.0 == 4`); anything else raises ValueError. -/
def statusOfVal : PyVal → Option TransactionStatus
  | .pyInt n => statusOfCode n
  | .pyBool b => statusOfCode (if b then 1 else 0)
  | .pyFloat r =>
    match parseDecimal r with
    | some (.fin m e) =>
      let q : ℚ := (m : ℚ) * (10 : ℚ) ^ e
      if q.den = 1 then statusOfCode q.num else none
    | _ => none
  | _ => none

/-- `Network` (models.py). -/
structure Network where
  name : PyVal
  short_name : PyVal
  address_validation : PyVal
  memo_needed : PyVal
  explorer_url : PyVal
  address_url : PyVal
  priority : PyVal
  kind : PyVal
  chain_id : PyVal
  icon : PyVal
  deriving Repr

/-- `Network.from_dict` (models.py): requires a dict containing the keys
`name`, `shortName`, `addressValidation`; fields default as in the source. -/
def Network.from_dict (v : PyVal) : Except PyExc Network :=
  match v with
  | .pyDict data =>
    let missing := ["name", "shortName", "addressValidation"].filter
      (fun f => ¬ dictContains data f)
    if missing.isEmpty then
      .ok { name := dictGetD data "name" (.pyStr "")
            short_name := dictGetD data "shortName" (.pyStr "")
            address_validation := dictGetD data "addressValidation" (.pyStr "")
            memo_needed := dictGetD data "memoNeeded" (.pyBool false)
            explorer_url := dictGetD data "explorerUrl" .pyNone
            address_url := dictGetD data "addressUrl" .pyNone
            priority := dictGetD data "priority" .pyNone
            kind := dictGetD data "kind" .pyNone
            chain_id := dictGetD data "chainId" .pyNone
            icon := dictGetD data "icon" .pyNone }
    else .error .validationError
  | _ => .error .validationError

/-- The minimal placeholder Network built when the token payload carries no
usable network value. -/
def placeholderNetwork : Network :=
  { name := .pyStr "", short_name := .pyStr "", address_validation := .pyStr ""
    memo_needed := .pyBool false, explorer_url := .pyNone, address_url := .pyNone
    priority := .pyNone, kind := .pyNone, chain_id := .pyNone, icon := .pyNone }

/-- `Token` (models.py). -/
structure Token where
  id : PyVal
  name : PyVal
  symbol : PyVal
  network : Network
  display_name : PyVal
  icon : PyVal
  keyword : PyVal
  color : PyVal
  chain : PyVal
  address : PyVal
  has_markup : PyVal
  network_priority : PyVal
  has_fixed : PyVal
  has_fixed_reverse : PyVal
  deriving Repr

/-- `Token.from_dict` (models.py): requires a dict containing the keys `id`,
`name`, `symbol`, `network`; a truthy network value is decoded with
`Network.from_dict`, a falsy one (`None`, `{}`, ... — the `{}` default is
only reachable when the key is absent, which the required-field check rules
out) yields the minimal placeholder Network. -/
def Token.from_dict (v : PyVal) : Except PyExc Token :=
  match v with
  | .pyDict data =>
    let missing := ["id", "name", "symbol", "network"].filter
      (fun f => ¬ dictContains data f)
    if missing.isEmpty then
      let network_data := dictGetD data "network" (.pyDict [])
      match (if pyTruthy network_data then Network.from_dict network_data
             else .ok placeholderNetwork) with
      | .error e => .error e
      | .ok network =>
        .ok { id := dictGetD data "id" (.pyStr "")
              name := dictGetD data "name" (.pyStr "")
              symbol := dictGetD data "symbol" (.pyStr "")
              network := network
              display_name := dictGetD data "displayName" .pyNone
              icon := dictGetD data "icon" .pyNone
              keyword := dictGetD data "keyword" .pyNone
              color := dictGetD data "color" .pyNone
              chain := dictGetD data "chain" .pyNone
              address := dictGetD data "address" .pyNone
              has_markup := dictGetD data "hasMarkup" .pyNone
              network_priority := dictGetD data "networkPriority" .pyNone
              has_fixed := dictGetD data "hasFixed" .pyNone
              has_fixed_reverse := dictGetD data "hasFixedReverse" .pyNone }
    else .error .validationError
  | _ => .error .validationError

/-- `RouteDTO` (models.py): stores the raw payload dict unparsed. -/
structure RouteDTO where
  raw : PyVal
  deriving Repr

/-- `RouteDTO.from_dict` (models.py): any dict is accepted and stored
verbatim; every non-dict raises ValidationError. -/
def RouteDTO.from_dict (v : PyVal) : Except PyExc RouteDTO :=
  match v with
  | .pyDict _ => .ok { raw := v }
  | _ => .error .validationError

/-- `RouteDTO.to_dict` (models.py): returns the stored payload unchanged. -/
def RouteDTO.to_dict (r : RouteDTO) : PyVal := r.raw

/-- `Quote` (models.py); the amount fields hold a Decimal or `None`. -/
structure Quote where
  amount_in : Option Dec
  amount_out : Option Dec
  min : Option Dec
  max : Option Dec
  use_xmr : PyVal
  duration : PyVal
  device_info : PyVal
  is_mobile : PyVal
  client_id : PyVal
  deriving Repr

/-- The local `to_decimal` helper of `Quote.from_dict`: `None` maps to
`None`; otherwise `Decimal(str(value))`, whose failure propagates as an
uncaught `decimal.InvalidOperation`. -/
def quoteToDecimal (v : PyVal) : Except PyExc (Option Dec) :=
  match v with
  | .pyNone => .ok none
  | _ =>
    match decimalOfStrOf v with
    | some d => .ok (some d)
    | none => .error .invalidOperation

/-- `Quote.from_dict` (models.py): a non-dict raises ValidationError; the
amount fields go through `to_decimal` (defaulting to 0 for `amountIn` /
`amountOut` and to `None` for `min` / `max`), the rest are stored verbatim. -/
def Quote.from_dict (v : PyVal) : Except PyExc Quote :=
  match v with
  | .pyDict data =>
    match quoteToDecimal (dictGetD data "amountIn" (.pyInt 0)),
        quoteToDecimal (dictGetD data "amountOut" (.pyInt 0)),
        quoteToDecimal (dictGetD data "min" .pyNone),
        quoteToDecimal (dictGetD data "max" .pyNone) with
    | .ok ai, .ok ao, .ok mn, .ok mx =>
      .ok { amount_in := ai, amount_out := ao, min := mn, max := mx
            use_xmr := dictGetD data "useXmr" .pyNone
            duration := dictGetD data "duration" .pyNone
            device_info := dictGetD data "deviceInfo" .pyNone
            is_mobile := dictGetD data "isMobile" .pyNone
            client_id := dictGetD data "clientId" .pyNone }
    | .error e, _, _, _ => .error e
    | _, .error e, _, _ => .error e
    | _, _, .error e, _ => .error e
    | _, _, _, .error e => .error e
  | _ => .error .validationError

/-- `Status` (models.py). -/
structure Status where
  houdiniId : PyVal
  status : TransactionStatus
  created : PyVal
  sender_address : PyVal
  receiver_address : PyVal
  anonymous : PyVal
  expires : PyVal
  in_amount : PyVal
  in_symbol : PyVal
  out_amount : PyVal
  out_symbol : PyVal
  eta : PyVal
  deriving Repr

/-- `Status.from_dict` (models.py): requires a dict containing `houdiniId`
and `status`; the status code (default 0) is looked up in the enumeration,
with a lookup ValueError re-raised as ValidationError. -/
def Status.from_dict (v : PyVal) : Except PyExc Status :=
  match v with
  | .pyDict data =>
    let missing := ["houdiniId", "status"].filter (fun f => ¬ dictContains data f)
    if missing.isEmpty then
      match statusOfVal (dictGetD data "status" (.pyInt 0)) with
      | none => .error .validationError
      | some st =>
        .ok { houdiniId := dictGetD data "houdiniId" (.pyStr "")
              status := st
              created := dictGetD data "created" .pyNone
              sender_address := dictGetD data "senderAddress" .pyNone
              receiver_address := dictGetD data "receiverAddress" .pyNone
              anonymous := dictGetD data "anonymous" .pyNone
              expires := dictGetD data "expires" .pyNone
              in_amount := dictGetD data "inAmount" .pyNone
              in_symbol := dictGetD data "inSymbol" .pyNone
              out_amount := dictGetD data "outAmount" .pyNone
              out_symbol := dictGetD data "outSymbol" .pyNone
              eta := dictGetD data "eta" .pyNone }
    else .error .validationError
  | _ => .error .validationError

/-- `MinMax` (models.py). -/
structure MinMax where
  min : Dec
  max : Dec
  deriving DecidableEq, Repr

/-- `MinMax.from_list` (models.py): fewer than 2 elements raises a plain
builtin `ValueError` (not ValidationError); otherwise the first two elements
go through `Decimal(str(x))`, whose failure propagates as
`decimal.InvalidOperation`. -/
def MinMax.from_list (data : List PyVal) : Except PyExc MinMax :=
  match data with
  | a :: b :: _ =>
    match decimalOfStrOf a, decimalOfStrOf b with
    | some mn, some mx => .ok { min := mn, max := mx }
    | _, _ => .error .invalidOperation
  | _ => .error .valueError

/-! ### client.py: typed operations

Each public operation is embedded up to the point where it hands a request
to `_request`: the result is `.ok req` when the operation reaches the
network (`req` records the method, endpoint and parameters it sends) and
`.error e` when it raises before any network call.  The endpoint path
constants live in the `constants` module, which is not in the source tree;
the paths below are the ones the spec's wire-contract table (§6) assigns to
these operations. -/

/-- The HTTP request a typed operation hands to `_request`. -/
structure Request where
  method : String
  endpoint : String
  params : List (String × PyVal)
  deriving Repr

/-- `HoudiniSwapClient.get_cex_quote` (client.py): builds the `/quote` query
from its arguments and calls `_request` directly — no sanitizer or amount
validation runs on `amount`, `from_token` or `to_token`. -/
def get_cex_quote (amount from_token to_token : PyVal) (anonymous : Bool)
    (use_xmr : Option Bool) : Except PyExc Request :=
  .ok { method := "GET", endpoint := "/quote"
        params := [("amount", amount), ("from", from_token), ("to", to_token),
                   ("anonymous", .pyBool anonymous)] ++
          (match use_xmr with
           | some b => [("useXmr", .pyBool b)]
           | none => []) }

/-- `HoudiniSwapClient.get_min_max` (client.py): `from_token` and `to_token`
pass through `_sanitize_input` (whose result is discarded; the original
values are sent) before the `/minMax` request is issued. -/
def get_min_max (from_token to_token : PyVal) (anonymous : Bool)
    (cex_only : Option Bool) : Except PyExc Request :=
  match sanitize_input from_token, sanitize_input to_token with
  | .ok _, .ok _ =>
    .ok { method := "GET", endpoint := "/minMax"
          params := [("from", from_token), ("to", to_token),
                     ("anonymous", .pyBool anonymous)] ++
            (match cex_only with
             | some b => [("cexOnly", .pyBool b)]
             | none => []) }
  | .error e, _ => .error e
  | _, .error e => .error e

/-! ### client.py: token cache -/

/-- `self._token_cache`: a dict from cache key to `(data, timestamp)`.
Timestamps (`time.time()`) are embedded as rationals. -/
abbrev TokenCache := List (String × (List Token × ℚ))

/-- Result of one `get_cex_tokens` call: the outcome, the cache afterwards,
and the number of network calls made (0 or 1). -/
structure GetTokensResult where
  result : Except PyExc (List Token)
  cache : TokenCache
  networkCalls : Nat

/-- `HoudiniSwapClient.get_cex_tokens` (client.py) for a client with the
given cache configuration, at wall-clock time `now`, over a transport whose
(successful) response body is `response`.  Cache lookup: if enabled, an
entry exists and `now - timestamp < ttl`, return it without a network call;
otherwise fetch, require a list body (else APIError), decode each element
with `Token.from_dict`, and store `(tokens, now)` if caching is enabled. -/
def get_cex_tokens (cache_enabled : Bool) (cache_ttl : ℚ) (cache : TokenCache)
    (now : ℚ) (response : PyVal) : GetTokensResult :=
  let cache_key := "cex_tokens"
  let hit : Option (List Token) :=
    if cache_enabled then
      match dictLookup cache_key cache with
      | some (data, t) => if now - t < cache_ttl then some data else none
      | none => none
    else none
  match hit with
  | some data => { result := .ok data, cache := cache, networkCalls := 0 }
  | none =>
    match response with
    | .pyList items =>
      match items.mapM Token.from_dict with
      | .ok tokens =>
        { result := .ok tokens
          cache := if cache_enabled then dictStore cache_key (tokens, now) cache
                   else cache
          networkCalls := 1 }
      | .error e => { result := .error e, cache := cache, networkCalls := 1 }
    | _ => { result := .error .apiError, cache := cache, networkCalls := 1 }

/-- `HoudiniSwapClient.clear_cache` (client.py): `self._token_cache.clear()`
empties the mapping unconditionally. -/
def clear_cache (_cache : TokenCache) : TokenCache := []

/-- `DEXToken` (models.py); every field is stored verbatim with the
source's `data.get` defaults and no validation. -/
structure DEXToken where
  id : PyVal
  address : PyVal
  chain : PyVal
  decimals : PyVal
  symbol : PyVal
  name : PyVal
  created : PyVal
  modified : PyVal
  enabled : PyVal
  has_dex : PyVal
  deriving Repr

/-- `DEXToken.from_dict` (models.py): total on dicts, no required fields. -/
def DEXToken.from_dict (data : List (String × PyVal)) : DEXToken :=
  { id := dictGetD data "id" (.pyStr "")
    address := dictGetD data "address" (.pyStr "")
    chain := dictGetD data "chain" (.pyStr "")
    decimals := dictGetD data "decimals" (.pyInt 0)
    symbol := dictGetD data "symbol" (.pyStr "")
    name := dictGetD data "name" (.pyStr "")
    created := dictGetD data "created" .pyNone
    modified := dictGetD data "modified" .pyNone
    enabled := dictGetD data "enabled" .pyNone
    has_dex := dictGetD data "hasDex" .pyNone }

/-- `DEXTokensResponse` (models.py). -/
structure DEXTokensResponse where
  count : PyVal
  tokens : List DEXToken
  deriving Repr

/-- The decode step of `get_dex_tokens`: `response.get("count", 0)` and
`DEXToken.from_dict` over `response.get("tokens", [])`.  A non-dict response
makes `response.get` raise `AttributeError`; a non-list `tokens` value makes
the list comprehension fail; a non-dict element makes `token_data.get`
raise `AttributeError`. -/
def dexTokensDecode (response : PyVal) : Except PyExc DEXTokensResponse :=
  match response with
  | .pyDict data =>
    match dictGetD data "tokens" (.pyList []) with
    | .pyList items =>
      match items.mapM (fun it =>
          match it with
          | .pyDict d => Except.ok (DEXToken.from_dict d)
          | _ => (Except.error .attributeError : Except PyExc DEXToken)) with
      | .ok toks => .ok ⟨dictGetD data "count" (.pyInt 0), toks⟩
      | .error e => .error e
    | _ => .error .typeError
  | _ => .error .attributeError

/-- `HoudiniSwapClient._validate_page` (client.py): requires an `int`
(Python `bool` included, with values 1/0) that is at least 1. -/
def validate_page (v : PyVal) : Except PyExc Unit :=
  match v with
  | .pyInt n => if n < 1 then .error .validationError else .ok ()
  | .pyBool b => if b then .ok () else .error .validationError
  | _ => .error .validationError

/-- `HoudiniSwapClient._validate_page_size` (client.py): same check. -/
def validate_page_size (v : PyVal) : Except PyExc Unit :=
  match v with
  | .pyInt n => if n < 1 then .error .validationError else .ok ()
  | .pyBool b => if b then .ok () else .error .validationError
  | _ => .error .validationError

/-- f-string interpolation of a validated page/pageSize value (`str(x)`). -/
def pageStr : PyVal → String
  | .pyInt n => toString n
  | .pyBool b => if b then "True" else "False"
  | _ => ""

/-- The cache key `f"dex_tokens_{page}_{page_size}_{chain or 'all'}"`:
`chain or 'all'` falls back to `"all"` for an absent or empty chain. -/
def dexCacheKey (page page_size : PyVal) (chain : Option String) : String :=
  "dex_tokens_" ++ pageStr page ++ "_" ++ pageStr page_size ++ "_" ++
    (match chain with
     | some c => if c.isEmpty then "all" else c
     | none => "all")

/-- The slice of `self._token_cache` holding `get_dex_tokens` entries; its
keys all start with `dex_tokens_` and so never collide with the
`cex_tokens` key of `get_cex_tokens`, which lets the shared dict be split
by operation in the model. -/
abbrev DexCache := List (String × (DEXTokensResponse × ℚ))

/-- Result of one `get_dex_tokens` call. -/
structure GetDexTokensResult where
  result : Except PyExc DEXTokensResponse
  cache : DexCache
  networkCalls : Nat

/-- `HoudiniSwapClient.get_dex_tokens` (client.py): validate `page` and
`page_size`, build the parameter-keyed cache key, and then apply the same
cache discipline as `get_cex_tokens`: return a cache entry younger than
`ttl` without a network call, otherwise fetch, decode, and overwrite the
entry when caching is enabled. -/
def get_dex_tokens (page page_size : PyVal) (chain : Option String)
    (cache_enabled : Bool) (cache_ttl : ℚ) (cache : DexCache) (now : ℚ)
    (response : PyVal) : GetDexTokensResult :=
  match validate_page page, validate_page_size page_size with
  | .error e, _ => ⟨.error e, cache, 0⟩
  | _, .error e => ⟨.error e, cache, 0⟩
  | .ok _, .ok _ =>
    let cache_key := dexCacheKey page page_size chain
    let hit : Option DEXTokensResponse :=
      if cache_enabled then
        match dictLookup cache_key cache with
        | some (data, t) => if now - t < cache_ttl then some data else none
        | none => none
      else none
    match hit with
    | some data => ⟨.ok data, cache, 0⟩
    | none =>
      match dexTokensDecode response with
      | .ok result =>
        ⟨.ok result,
         (if cache_enabled then dictStore cache_key (result, now) cache
          else cache), 1⟩
      | .error e => ⟨.error e, cache, 1⟩

/-! ### client.py: the parallel fan-out helper -/

/-- `HoudiniSwapClient.execute_parallel` (client.py) for `n` thunks whose
individual outcomes are `outcome i` (a value, or the exception the thunk
raised), completing in the order `order`: `results` starts as
`[None] * n`, and each completed future writes its thunk's outcome at the
index the thunk was submitted under (`future_to_index`), the exception being
stored as data rather than re-raised.  `order` is the completion order
produced by `as_completed`, an arbitrary enumeration of the submitted
futures. -/
def execute_parallel (n : Nat) (outcome : Fin n → Except PyExc α)
    (order : List (Fin n)) : List (Option (Except PyExc α)) :=
  order.foldl (fun results i => results.set i.val (some (outcome i)))
    (List.replicate n none)

/-! ### Specification-side notions used to state the claims -/

/-- A value of one of the four amount representation types named by the
spec: int, float, exact decimal, or string (a Python `bool` is an `int` and
is therefore also accepted by the type checks of the source, but it is not
one of the spec's four representations). -/
def amountRep : PyVal → Bool
  | .pyInt _ | .pyFloat _ | .pyDec _ | .pyStr _ => true
  | _ => false

/-- A value `isinstance(amount, (int, float, Decimal, str))` accepts and,
for a string, that parses as a Decimal (the spec's "accepted" inputs). -/
def amountAccepted : PyVal → Bool
  | .pyBool _ | .pyInt _ | .pyFloat _ | .pyDec _ => true
  | .pyStr s => (parseDecimal s).isSome
  | _ => false

/-- The exact numeric quantity an accepted amount representation denotes
(a float via its round-trip decimal representation); `none` for
non-numeric values and for Infinity/NaN. -/
def amountValue : PyVal → Option ℚ
  | .pyBool b => some (if b then 1 else 0)
  | .pyInt n => some (n : ℚ)
  | .pyFloat r => (parseDecimal r).bind Dec.val
  | .pyDec d => d.val
  | .pyStr s => (parseDecimal s).bind Dec.val
  | _ => none

end HS

namespace HS

/-! ## Theorems -/

/-- The retry loop started at attempt `a ≤ m` makes at most `m + 1 - a`
further transport invocations. -/
theorem reqGo_count_le (m : Nat) (rs : List Resp) :
    ∀ a, a ≤ m → (reqGo m a rs).2 ≤ m + 1 - a := by
  induction rs with
  | nil => intro a _; simp [reqGo]
  | cons r rest ih =>
    intro a ha
    cases r with
    | http status body =>
      by_cases h401 : status = 401
      · simp [reqGo, h401]; omega
      · by_cases h429 : status = 429
        · by_cases hlt : a < m
          · have := ih (a + 1) (by omega)
            simp only [reqGo, if_neg h401, if_pos h429, if_pos hlt]
            omega
          · simp [reqGo, h401, h429, hlt]; omega
        · by_cases hretry : status ∈ retryableStatuses ∧ a < m
          · have := ih (a + 1) (by omega)
            simp only [reqGo, if_neg h401, if_neg h429, if_pos hretry]
            omega
          · by_cases h400 : 400 ≤ status
            · simp [reqGo, h401, h429, hretry, h400]; omega
            · simp [reqGo, h401, h429, hretry, h400]; omega
    | transportError =>
      by_cases hlt : a < m
      · have := ih (a + 1) (by omega)
        simp only [reqGo, if_pos hlt]
        omega
      · simp [reqGo, hlt]; omega
    | unexpected =>
      by_cases hlt : a < m
      · have := ih (a + 1) (by omega)
        simp only [reqGo, if_pos hlt]
        omega
      · simp [reqGo, hlt]; omega

/-- C1: over a fixed transport response sequence with `max_retries = 2`, the
sequence [500, 500, 200] makes exactly 3 transport invocations and returns
the decoded body; [500, 500, 500] makes exactly 3 invocations and raises
APIError; a first response of 401 makes exactly 1 invocation and raises
AuthenticationError with no retry (for any `max_retries` and any later
responses); and in general `_request` makes at most `max_retries + 1`
attempts. -/
theorem C1_request_retry :
    (∀ b : PyVal,
      request 2 [.http 500 .pyNone, .http 500 .pyNone, .http 200 b] = (.ok b, 3)) ∧
    request 2 [.http 500 .pyNone, .http 500 .pyNone, .http 500 .pyNone] =
      (.apiError 500, 3) ∧
    (∀ (m : Nat) (body : PyVal) (rest : List Resp),
      request m (.http 401 body :: rest) = (.authError, 1)) ∧
    (∀ (m : Nat) (rs : List Resp), (request m rs).2 ≤ m + 1) := by
  refine ⟨fun b => rfl, rfl, fun m body rest => rfl, fun m rs => ?_⟩
  have := reqGo_count_le m rs 0 (Nat.zero_le m)
  simpa [request] using this

/-- C8: RouteDTO round-trips every dict payload unchanged (opaque
passthrough), and raises ValidationError on every non-dict payload. -/
theorem C8_routedto_roundtrip :
    (∀ l : List (String × PyVal),
      ∃ r, RouteDTO.from_dict (.pyDict l) = .ok r ∧ r.to_dict = .pyDict l) ∧
    (∀ v : PyVal, (∀ l, v ≠ .pyDict l) →
      RouteDTO.from_dict v = .error .validationError) := by
  constructor
  · intro l; exact ⟨{ raw := .pyDict l }, rfl, rfl⟩
  · intro v hv
    cases v with
    | pyDict l => exact absurd rfl (hv l)
    | pyNone => rfl
    | pyBool b => rfl
    | pyInt n => rfl
    | pyFloat r => rfl
    | pyDec d => rfl
    | pyStr s => rfl
    | pyList l => rfl

/-- Witness for C8 at concrete inputs. -/
theorem C8_routedto_roundtrip_witness :
    RouteDTO.from_dict (.pyStr "route") = .error .validationError ∧
    (RouteDTO.from_dict (.pyDict [("bridge", .pyStr "sw")])).map
        RouteDTO.to_dict = .ok (.pyDict [("bridge", .pyStr "sw")]) := by
  refine ⟨C8_routedto_roundtrip.2 (.pyStr "route") (fun _ h => by cases h), ?_⟩
  obtain ⟨r, h1, h2⟩ := C8_routedto_roundtrip.1 [("bridge", .pyStr "sw")]
  rw [h1]
  show Except.ok r.to_dict = .ok (.pyDict [("bridge", .pyStr "sw")])
  rw [h2]

/-- C10: `Token.from_dict` requires only the presence of the `network` key,
not a usable value: for every payload dict containing the keys `id`, `name`,
`symbol` and `network` whose network value is null or an empty dict,
decoding succeeds and the resulting token's network is the placeholder
Network with empty name, empty short name, empty address-validation pattern
and `memo_needed = False`. -/
theorem C10_token_network_placeholder
    (data : List (String × PyVal)) (nv : PyVal)
    (hid : dictContains data "id" = true)
    (hname : dictContains data "name" = true)
    (hsym : dictContains data "symbol" = true)
    (hnet : dictLookup "network" data = some nv)
    (hnv : nv = .pyNone ∨ nv = .pyDict []) :
    ∃ t, Token.from_dict (.pyDict data) = .ok t ∧ t.network = placeholderNetwork := by
  have hc : dictContains data "network" = true := by
    simp [dictContains, hnet]
  have hfilter : (["id", "name", "symbol", "network"].filter
      (fun f => ¬ dictContains data f)) = [] := by
    simp [hid, hname, hsym, hc]
  have hgd : dictGetD data "network" (.pyDict []) = nv := by
    simp [dictGetD, hnet]
  have htr : pyTruthy nv = false := by
    rcases hnv with h | h <;> subst h <;> rfl
  simp only [Token.from_dict, hfilter, hgd, htr, List.isEmpty_nil, if_true,
    if_false, Bool.false_eq_true]
  exact ⟨_, rfl, rfl⟩

/-- Witness for C10 at a concrete payload with a null network value. -/
theorem C10_token_network_placeholder_witness :
    (Token.from_dict (.pyDict [("id", .pyStr "1"), ("name", .pyStr "Ether"),
        ("symbol", .pyStr "ETH"), ("network", .pyNone)])).map Token.network =
      .ok placeholderNetwork := by
  obtain ⟨t, h1, h2⟩ := C10_token_network_placeholder
    [("id", .pyStr "1"), ("name", .pyStr "Ether"),
     ("symbol", .pyStr "ETH"), ("network", .pyNone)] .pyNone
    rfl rfl rfl rfl (Or.inl rfl)
  rw [h1]
  show Except.ok t.network = .ok placeholderNetwork
  rw [h2]

/-- C6: for every status code in {-1, ..., 8}, `Status.from_dict` on a
payload with `houdiniId` and that code succeeds and yields the member of the
enumeration carrying that code; for every integer code outside the set it
raises ValidationError rather than substituting a default state. -/
theorem C6_status_enumeration (hid : PyVal) (code : Int) :
    (-1 ≤ code ∧ code ≤ 8 →
      ∃ st, statusOfCode code = some st ∧ st.code = code ∧
        ∃ s, Status.from_dict
            (.pyDict [("houdiniId", hid), ("status", .pyInt code)]) = .ok s ∧
          s.status = st) ∧
    (¬ (-1 ≤ code ∧ code ≤ 8) →
      Status.from_dict
          (.pyDict [("houdiniId", hid), ("status", .pyInt code)]) =
        .error .validationError) := by
  constructor
  · rintro ⟨hlo, hhi⟩
    interval_cases code <;>
      exact ⟨_, rfl, rfl, _, rfl, rfl⟩
  · intro h
    have hnone : statusOfCode code = none := by
      unfold statusOfCode
      repeat rw [if_neg (by omega)]
    have hred : Status.from_dict
        (.pyDict [("houdiniId", hid), ("status", .pyInt code)]) =
          (match statusOfCode code with
           | none => .error .validationError
           | some st =>
             .ok { houdiniId := hid, status := st, created := .pyNone,
                   sender_address := .pyNone, receiver_address := .pyNone,
                   anonymous := .pyNone, expires := .pyNone, in_amount := .pyNone,
                   in_symbol := .pyNone, out_amount := .pyNone,
                   out_symbol := .pyNone, eta := .pyNone }) := rfl
    rw [hred, hnone]

/-- Witness for C6 at concrete inputs. -/
theorem C6_status_enumeration_witness :
    (Status.from_dict
        (.pyDict [("houdiniId", .pyStr "h9NpKm75gRnX7GWaFATwYn"),
                  ("status", .pyInt 4)])).map Status.status =
      .ok .FINISHED ∧
    Status.from_dict
        (.pyDict [("houdiniId", .pyStr "h9NpKm75gRnX7GWaFATwYn"),
                  ("status", .pyInt 999)]) =
      .error .validationError := by
  refine ⟨?_,
    (C6_status_enumeration (.pyStr "h9NpKm75gRnX7GWaFATwYn") 999).2 (by omega)⟩
  obtain ⟨st, hst, -, s, hs, hstat⟩ :=
    (C6_status_enumeration (.pyStr "h9NpKm75gRnX7GWaFATwYn") 4).1 (by omega)
  have hfin : st = .FINISHED := by
    have h4 : statusOfCode (4 : Int) = some .FINISHED := rfl
    rw [h4] at hst
    exact (Option.some_inj.mp hst).symm
  rw [hs]
  show Except.ok s.status = .ok .FINISHED
  rw [hstat, hfin]

/-- C2, counterexample: `get_cex_quote` called with a from_token containing
a newline — a value `_sanitize_input` rejects — raises no ValidationError
and hands the request, unvalidated value included, to the request engine. -/
theorem C2_sanitize_counterexample :
    get_cex_quote (.pyStr "1.0") (.pyStr "ETH\nBNB") (.pyStr "BNB") false none =
      .ok { method := "GET", endpoint := "/quote",
            params := [("amount", .pyStr "1.0"), ("from", .pyStr "ETH\nBNB"),
                       ("to", .pyStr "BNB"), ("anonymous", .pyBool false)] } ∧
    sanitize_input (.pyStr "ETH\nBNB") = .error .validationError :=
  ⟨rfl, rfl⟩

/-- C2, amended: not every public typed operation sanitizes its scalar
inputs before issuing a request.  Operations that do call `_sanitize_input`
on a string input — `get_min_max` on `from_token` is representative — raise
ValidationError, before any network call, whenever the value is empty after
trimming or its trimmed form contains a newline, carriage return, tab or
NUL; `get_cex_quote`, however, issues its request for every `amount`,
`from_token` and `to_token` without any validation. -/
theorem C2_sanitize_amended :
    (∀ (s : String) (tt : PyVal) (anon : Bool) (cex : Option Bool),
      (pyStrip s).isEmpty = true ∨ containsDangerous (pyStrip s) = true →
      get_min_max (.pyStr s) tt anon cex = .error .validationError) ∧
    (∀ (amount ft tt : PyVal) (anon : Bool) (xmr : Option Bool),
      ∃ req, get_cex_quote amount ft tt anon xmr = .ok req) := by
  constructor
  · intro s tt anon cex h
    have hs : sanitize_input (.pyStr s) = .error .validationError := by
      rcases h with h | h
      · simp [sanitize_input, h]
      · by_cases he : (pyStrip s).isEmpty
        · simp [sanitize_input, he]
        · simp [sanitize_input, he, h]
    simp [get_min_max, hs]
  · intro amount ft tt anon xmr
    exact ⟨_, rfl⟩

/-- Witness for C2 at concrete inputs. -/
theorem C2_sanitize_amended_witness :
    get_min_max (.pyStr " \n ") (.pyStr "ETH") false none =
      .error .validationError ∧
    get_min_max (.pyStr "E\tTH") (.pyStr "ETH") false none =
      .error .validationError ∧
    (get_cex_quote (.pyStr "1.0") (.pyStr "E\tTH") (.pyStr "BNB")
      false none).isOk = true := by
  refine
    ⟨C2_sanitize_amended.1 " \n " (.pyStr "ETH") false none (Or.inl (by decide)),
     C2_sanitize_amended.1 "E\tTH" (.pyStr "ETH") false none (Or.inr (by decide)),
     ?_⟩
  obtain ⟨req, hreq⟩ :=
    C2_sanitize_amended.2 (.pyStr "1.0") (.pyStr "E\tTH") (.pyStr "BNB") false none
  rw [hreq]
  rfl

/-- C3, counterexample: `Quote.from_dict` on a payload whose `amountIn` is
the non-numeric string "abc" raises `decimal.InvalidOperation`, and
`MinMax.from_list` on a one-element list raises the builtin `ValueError` —
neither failure is a ValidationError. -/
theorem C3_decode_counterexample :
    Quote.from_dict (.pyDict [("amountIn", .pyStr "abc")]) =
      .error .invalidOperation ∧
    MinMax.from_list [.pyFloat "0.01"] = .error .valueError ∧
    PyExc.invalidOperation ≠ PyExc.validationError ∧
    PyExc.valueError ≠ PyExc.validationError :=
  ⟨rfl, rfl, by decide, by decide⟩

/-- The `to_decimal` helper either produces a value or raises
`decimal.InvalidOperation`. -/
theorem quoteToDecimal_cases (v : PyVal) :
    (∃ d, quoteToDecimal v = .ok d) ∨
      quoteToDecimal v = .error .invalidOperation := by
  by_cases hv : v = .pyNone
  · subst hv; exact Or.inl ⟨none, rfl⟩
  · have hq : quoteToDecimal v =
        (match decimalOfStrOf v with
         | some d => .ok (some d)
         | none => .error .invalidOperation) := by
      cases v <;> first | exact absurd rfl hv | rfl
    rw [hq]
    cases decimalOfStrOf v
    · exact Or.inr rfl
    · exact Or.inl ⟨_, rfl⟩

/-- C3, amended: decoding a non-dict payload with `Quote.from_dict` raises
ValidationError, and for every dict payload it either returns a record,
raises ValidationError, or raises `decimal.InvalidOperation` when an amount
field fails numeric conversion (e.g. a non-numeric `amountIn` string);
`MinMax.from_list` on every list with fewer than 2 elements raises the
builtin `ValueError`, not ValidationError. -/
theorem C3_decode_amended :
    (∀ v : PyVal, (∀ l, v ≠ .pyDict l) →
      Quote.from_dict v = .error .validationError) ∧
    (∀ v : PyVal, (∃ q, Quote.from_dict v = .ok q) ∨
      Quote.from_dict v = .error .validationError ∨
      Quote.from_dict v = .error .invalidOperation) ∧
    (∀ l : List PyVal, l.length < 2 → MinMax.from_list l = .error .valueError) ∧
    Quote.from_dict (.pyDict [("amountIn", .pyStr "abc")]) =
      .error .invalidOperation := by
  refine ⟨?_, ?_, ?_, rfl⟩
  · intro v hv
    cases v with
    | pyDict l => exact absurd rfl (hv l)
    | pyNone => rfl
    | pyBool b => rfl
    | pyInt n => rfl
    | pyFloat r => rfl
    | pyDec d => rfl
    | pyStr s => rfl
    | pyList l => rfl
  · intro v
    cases v with
    | pyDict data =>
      rcases quoteToDecimal_cases (dictGetD data "amountIn" (.pyInt 0)) with
        ⟨ai, hai⟩ | hai
      · rcases quoteToDecimal_cases (dictGetD data "amountOut" (.pyInt 0)) with
          ⟨ao, hao⟩ | hao
        · rcases quoteToDecimal_cases (dictGetD data "min" .pyNone) with
            ⟨mn, hmn⟩ | hmn
          · rcases quoteToDecimal_cases (dictGetD data "max" .pyNone) with
              ⟨mx, hmx⟩ | hmx
            · exact Or.inl ⟨Quote.mk ai ao mn mx
                (dictGetD data "useXmr" .pyNone) (dictGetD data "duration" .pyNone)
                (dictGetD data "deviceInfo" .pyNone) (dictGetD data "isMobile" .pyNone)
                (dictGetD data "clientId" .pyNone),
                by simp [Quote.from_dict, hai, hao, hmn, hmx]⟩
            · exact Or.inr (Or.inr (by simp [Quote.from_dict, hai, hao, hmn, hmx]))
          · rcases quoteToDecimal_cases (dictGetD data "max" .pyNone) with
              ⟨mx, hmx⟩ | hmx <;>
              exact Or.inr (Or.inr (by simp [Quote.from_dict, hai, hao, hmn, hmx]))
        · rcases quoteToDecimal_cases (dictGetD data "min" .pyNone) with
            ⟨mn, hmn⟩ | hmn <;>
          rcases quoteToDecimal_cases (dictGetD data "max" .pyNone) with
            ⟨mx, hmx⟩ | hmx <;>
            exact Or.inr (Or.inr (by simp [Quote.from_dict, hai, hao, hmn, hmx]))
      · rcases quoteToDecimal_cases (dictGetD data "amountOut" (.pyInt 0)) with
          ⟨ao, hao⟩ | hao <;>
        rcases quoteToDecimal_cases (dictGetD data "min" .pyNone) with
          ⟨mn, hmn⟩ | hmn <;>
        rcases quoteToDecimal_cases (dictGetD data "max" .pyNone) with
          ⟨mx, hmx⟩ | hmx <;>
          exact Or.inr (Or.inr (by simp [Quote.from_dict, hai, hao, hmn, hmx]))
    | pyNone => exact Or.inr (Or.inl rfl)
    | pyBool b => exact Or.inr (Or.inl rfl)
    | pyInt n => exact Or.inr (Or.inl rfl)
    | pyFloat r => exact Or.inr (Or.inl rfl)
    | pyDec d => exact Or.inr (Or.inl rfl)
    | pyStr s => exact Or.inr (Or.inl rfl)
    | pyList l => exact Or.inr (Or.inl rfl)
  · intro l hl
    match l, hl with
    | [], _ => rfl
    | [a], _ => rfl

/-- Witness for C3 at concrete inputs. -/
theorem C3_decode_amended_witness :
    Quote.from_dict (.pyStr "quote") = .error .validationError ∧
    MinMax.from_list [] = .error .valueError :=
  ⟨C3_decode_amended.1 (.pyStr "quote") (fun _ h => by cases h),
   C3_decode_amended.2.2.1 [] (by decide)⟩

/-- C5: `_validate_amount` raises ValidationError on every value outside the
accepted types (int — including Python's bool subtype — float, Decimal, or
string parseable as a Decimal) and on every accepted representation whose
numeric value is zero or negative, and returns without raising on every
accepted representation whose numeric value is strictly positive. -/
theorem C5_validate_amount :
    (∀ v : PyVal, amountAccepted v = false →
      validate_amount v = .error .validationError) ∧
    (∀ (v : PyVal) (q : ℚ), amountValue v = some q → q ≤ 0 →
      validate_amount v = .error .validationError) ∧
    (∀ (v : PyVal) (q : ℚ), amountValue v = some q → 0 < q →
      validate_amount v = .ok ()) := by
  refine ⟨?_, ?_, ?_⟩
  · intro v h
    cases v with
    | pyNone => rfl
    | pyList l => rfl
    | pyDict l => rfl
    | pyBool b => simp [amountAccepted] at h
    | pyInt n => simp [amountAccepted] at h
    | pyFloat r => simp [amountAccepted] at h
    | pyDec d => simp [amountAccepted] at h
    | pyStr s =>
      cases hp : parseDecimal s with
      | none => simp [validate_amount, hp]
      | some d => simp [amountAccepted, hp] at h
  · intro v q hv hq
    cases v with
    | pyBool b =>
      cases b with
      | false => rfl
      | true =>
        simp only [amountValue, if_true, Option.some_inj] at hv
        rw [← hv] at hq; norm_num at hq
    | pyInt n =>
      simp only [amountValue, Option.some_inj] at hv
      have hn : n ≤ 0 := by exact_mod_cast hv ▸ hq
      simp [validate_amount, hn]
    | pyFloat r =>
      cases hp : parseDecimal r with
      | none => rw [amountValue, hp] at hv; cases hv
      | some d =>
        rw [amountValue, hp] at hv
        cases d with
        | fin m e =>
          simp only [Option.some_bind', Dec.val, Option.some_inj] at hv
          simp [validate_amount, hp, hv, hq]
        | inf neg => simp [Dec.val] at hv
        | nan sig => simp [Dec.val] at hv
    | pyDec d =>
      cases d with
      | fin m e =>
        simp only [amountValue, Dec.val, Option.some_inj] at hv
        simp [validate_amount, Dec.le0, hv, hq]
      | inf neg => simp [amountValue, Dec.val] at hv
      | nan sig => simp [amountValue, Dec.val] at hv
    | pyStr s =>
      cases hp : parseDecimal s with
      | none => rw [amountValue, hp] at hv; cases hv
      | some d =>
        rw [amountValue, hp] at hv
        cases d with
        | fin m e =>
          simp only [Option.some_bind', Dec.val, Option.some_inj] at hv
          simp [validate_amount, hp, Dec.le0, hv, hq]
        | inf neg => simp [Dec.val] at hv
        | nan sig => simp [Dec.val] at hv
    | pyNone => cases hv
    | pyList l => cases hv
    | pyDict l => cases hv
  · intro v q hv hq
    cases v with
    | pyBool b =>
      cases b with
      | true => rfl
      | false =>
        simp only [amountValue, if_false, Option.some_inj] at hv
        rw [← hv] at hq; norm_num at hq
    | pyInt n =>
      simp only [amountValue, Option.some_inj] at hv
      have hn : ¬ n ≤ 0 := by
        have : (0 : ℚ) < (n : ℚ) := hv ▸ hq
        exact_mod_cast not_le.mpr this
      simp [validate_amount, hn]
    | pyFloat r =>
      cases hp : parseDecimal r with
      | none => rw [amountValue, hp] at hv; cases hv
      | some d =>
        rw [amountValue, hp] at hv
        cases d with
        | fin m e =>
          simp only [Option.some_bind', Dec.val, Option.some_inj] at hv
          simp [validate_amount, hp, hv, not_le.mpr hq]
        | inf neg => simp [Dec.val] at hv
        | nan sig => simp [Dec.val] at hv
    | pyDec d =>
      cases d with
      | fin m e =>
        simp only [amountValue, Dec.val, Option.some_inj] at hv
        simp [validate_amount, Dec.le0, hv, not_le.mpr hq]
      | inf neg => simp [amountValue, Dec.val] at hv
      | nan sig => simp [amountValue, Dec.val] at hv
    | pyStr s =>
      cases hp : parseDecimal s with
      | none => rw [amountValue, hp] at hv; cases hv
      | some d =>
        rw [amountValue, hp] at hv
        cases d with
        | fin m e =>
          simp only [Option.some_bind', Dec.val, Option.some_inj] at hv
          simp [validate_amount, hp, Dec.le0, hv, not_le.mpr hq]
        | inf neg => simp [Dec.val] at hv
        | nan sig => simp [Dec.val] at hv
    | pyNone => cases hv
    | pyList l => cases hv
    | pyDict l => cases hv

/-- Witness for C5 at concrete inputs. -/
theorem C5_validate_amount_witness :
    validate_amount (.pyStr "abc") = .error .validationError ∧
    validate_amount (.pyInt (-5)) = .error .validationError ∧
    validate_amount (.pyStr "0.5") = .ok () :=
  ⟨C5_validate_amount.1 (.pyStr "abc") (by decide),
   C5_validate_amount.2.1 (.pyInt (-5)) (-5) rfl (by norm_num),
   C5_validate_amount.2.2 (.pyStr "0.5") ((5 : ℚ) * (10 : ℚ) ^ (-1 : ℤ))
     rfl (by positivity)⟩

/-- `_normalize_amount_to_decimal` preserves the represented quantity: on an
int, float, Decimal or string representation denoting the quantity `q` it
returns a finite decimal of value `q`. -/
theorem normalize_amount_to_decimal_val (v : PyVal) (q : ℚ)
    (hrep : amountRep v = true) (hv : amountValue v = some q) :
    ∃ m e : ℤ, normalize_amount_to_decimal v = .ok (.fin m e) ∧
      (m : ℚ) * (10 : ℚ) ^ e = q := by
  cases v with
  | pyInt n =>
    simp only [amountValue, Option.some_inj] at hv
    exact ⟨n, 0, rfl, by simp [hv]⟩
  | pyFloat r =>
    cases hp : parseDecimal r with
    | none => rw [amountValue, hp] at hv; cases hv
    | some d =>
      rw [amountValue, hp] at hv
      cases d with
      | fin m e =>
        simp only [Option.some_bind', Dec.val, Option.some_inj] at hv
        exact ⟨m, e, by simp [normalize_amount_to_decimal, hp], hv⟩
      | inf neg => simp [Dec.val] at hv
      | nan sig => simp [Dec.val] at hv
  | pyDec d =>
    cases d with
    | fin m e =>
      simp only [amountValue, Dec.val, Option.some_inj] at hv
      exact ⟨m, e, rfl, hv⟩
    | inf neg => simp [amountValue, Dec.val] at hv
    | nan sig => simp [amountValue, Dec.val] at hv
  | pyStr s =>
    cases hp : parseDecimal s with
    | none => rw [amountValue, hp] at hv; cases hv
    | some d =>
      rw [amountValue, hp] at hv
      cases d with
      | fin m e =>
        simp only [Option.some_bind', Dec.val, Option.some_inj] at hv
        exact ⟨m, e, by simp [normalize_amount_to_decimal, hp], hv⟩
      | inf neg => simp [Dec.val] at hv
      | nan sig => simp [Dec.val] at hv
  | pyNone => simp [amountRep] at hrep
  | pyBool b => simp [amountRep] at hrep
  | pyList l => simp [amountRep] at hrep
  | pyDict l => simp [amountRep] at hrep

/-- C4: any two int/float/exact-decimal/numeric-string representations of
the same quantity normalize to Decimals that compare equal under Decimal
equality, and the float path converts via the float's decimal string form —
`_normalize_amount_to_decimal` on a float agrees with `Decimal` applied to
the float's `str` representation, never the raw binary expansion — so the
float 0.1 normalizes to Decimal("0.1") exactly. -/
theorem C4_normalize_amount :
    (∀ (v1 v2 : PyVal) (q : ℚ), amountRep v1 = true → amountRep v2 = true →
      amountValue v1 = some q → amountValue v2 = some q →
      ∃ d1 d2, normalize_amount_to_decimal v1 = .ok d1 ∧
        normalize_amount_to_decimal v2 = .ok d2 ∧ d1.eqPy d2 = true) ∧
    (∀ (r : String) (d : Dec), parseDecimal r = some d →
      normalize_amount_to_decimal (.pyFloat r) = .ok d ∧
      normalize_amount_to_decimal (.pyStr r) = .ok d) ∧
    parseDecimal "0.1" = some (.fin 1 (-1)) ∧
    normalize_amount_to_decimal (.pyFloat "0.1") = .ok (.fin 1 (-1)) := by
  refine ⟨?_, ?_, by decide, rfl⟩
  · intro v1 v2 q h1 h2 hv1 hv2
    obtain ⟨m1, e1, hn1, hq1⟩ := normalize_amount_to_decimal_val v1 q h1 hv1
    obtain ⟨m2, e2, hn2, hq2⟩ := normalize_amount_to_decimal_val v2 q h2 hv2
    refine ⟨_, _, hn1, hn2, ?_⟩
    simp [Dec.eqPy, hq1, hq2]
  · intro r d hp
    exact ⟨by simp [normalize_amount_to_decimal, hp],
      by simp [normalize_amount_to_decimal, hp]⟩

/-- Witness for C4 at the concrete representations float 0.1 and string
"0.1". -/
theorem C4_normalize_amount_witness :
    (match normalize_amount_to_decimal (.pyFloat "0.1"),
        normalize_amount_to_decimal (.pyStr "0.1") with
     | .ok d1, .ok d2 => d1.eqPy d2
     | _, _ => false) = true ∧
    normalize_amount_to_decimal (.pyFloat "0.1") = .ok (.fin 1 (-1)) ∧
    normalize_amount_to_decimal (.pyStr "0.1") = .ok (.fin 1 (-1)) := by
  obtain ⟨hf, hs⟩ := C4_normalize_amount.2.1 "0.1" (.fin 1 (-1)) (by decide)
  refine ⟨?_, hf, hs⟩
  obtain ⟨d1, d2, h1, h2, he⟩ :=
    C4_normalize_amount.1 (.pyFloat "0.1") (.pyStr "0.1")
      (((1 : ℤ) : ℚ) * (10 : ℚ) ^ (-1 : ℤ)) rfl rfl rfl rfl
  rw [h1, h2]
  exact he

/-- Storing a key makes it the one subsequent lookups find. -/
theorem dictLookup_dictStore_self (k : String) (v : α) (c : List (String × α)) :
    dictLookup k (dictStore k v c) = some v := by
  induction c with
  | nil => simp [dictStore, dictLookup]
  | cons kv rest ih =>
    obtain ⟨k', v'⟩ := kv
    by_cases h : k' = k
    · subst h; simp [dictStore, dictLookup]
    · simp [dictStore, dictLookup, h, ih]

/-- C7: with caching enabled and TTL `ttl`, a first read call at time `t0`
(cache miss) makes one network call; a second call with identical
parameters strictly within `ttl` of `t0` makes no network call and returns
the first call's value with the cache unchanged; a call at or after
`t0 + ttl` makes a fresh network call and overwrites the cache entry with
the new value and timestamp; `clear_cache` empties the cache
unconditionally.  Stated for `get_cex_tokens` and, with identical
page/pageSize/chain parameters, for `get_dex_tokens`. -/
theorem C7_cache (ttl t0 t1 t2 : ℚ) (c0 : TokenCache)
    (resp1 resp2 : List PyVal) (toks1 toks2 : List Token)
    (r1 r2 r3 : GetTokensResult)
    (page page_size : PyVal) (chain : Option String) (d0 : DexCache)
    (dresp1 dresp2 : PyVal) (dres1 dres2 : DEXTokensResponse)
    (s1 s2 s3 : GetDexTokensResult)
    (hmiss : dictLookup "cex_tokens" c0 = (none : Option (List Token × ℚ)))
    (h1 : resp1.mapM Token.from_dict = .ok toks1)
    (h2 : resp2.mapM Token.from_dict = .ok toks2)
    (hfresh : t1 - t0 < ttl) (hstale : ttl ≤ t2 - t0)
    (hr1 : r1 = get_cex_tokens true ttl c0 t0 (.pyList resp1))
    (hr2 : r2 = get_cex_tokens true ttl r1.cache t1 (.pyList resp2))
    (hr3 : r3 = get_cex_tokens true ttl r1.cache t2 (.pyList resp2))
    (hpage : validate_page page = .ok ())
    (hpsize : validate_page_size page_size = .ok ())
    (hdmiss : dictLookup (dexCacheKey page page_size chain) d0 =
      (none : Option (DEXTokensResponse × ℚ)))
    (hd1 : dexTokensDecode dresp1 = .ok dres1)
    (hd2 : dexTokensDecode dresp2 = .ok dres2)
    (hs1 : s1 = get_dex_tokens page page_size chain true ttl d0 t0 dresp1)
    (hs2 : s2 = get_dex_tokens page page_size chain true ttl s1.cache t1 dresp2)
    (hs3 : s3 = get_dex_tokens page page_size chain true ttl s1.cache t2 dresp2) :
    (r1.networkCalls = 1 ∧ r1.result = .ok toks1 ∧
     r2.networkCalls = 0 ∧ r2.result = .ok toks1 ∧ r2.cache = r1.cache ∧
     r3.networkCalls = 1 ∧ r3.result = .ok toks2 ∧
     dictLookup "cex_tokens" r3.cache = some (toks2, t2) ∧
     clear_cache r3.cache = []) ∧
    (s1.networkCalls = 1 ∧ s1.result = .ok dres1 ∧
     s2.networkCalls = 0 ∧ s2.result = .ok dres1 ∧ s2.cache = s1.cache ∧
     s3.networkCalls = 1 ∧ s3.result = .ok dres2 ∧
     dictLookup (dexCacheKey page page_size chain) s3.cache =
       some (dres2, t2)) := by
  constructor
  · have h1' : List.mapM.loop Token.from_dict resp1 [] = Except.ok toks1 := h1
    have h2' : List.mapM.loop Token.from_dict resp2 [] = Except.ok toks2 := h2
    have hcomp1 : r1 =
        ⟨.ok toks1, dictStore "cex_tokens" (toks1, t0) c0, 1⟩ := by
      rw [hr1]; simp [get_cex_tokens, hmiss, h1']
    have hlook : dictLookup "cex_tokens" r1.cache = some (toks1, t0) := by
      rw [hcomp1]; exact dictLookup_dictStore_self _ _ _
    have hcomp2 : r2 = ⟨.ok toks1, r1.cache, 0⟩ := by
      rw [hr2]; simp [get_cex_tokens, hlook, hfresh]
    have hcomp3 : r3 =
        ⟨.ok toks2, dictStore "cex_tokens" (toks2, t2) r1.cache, 1⟩ := by
      rw [hr3]; simp [get_cex_tokens, hlook, not_lt.mpr hstale, h2']
    refine ⟨by rw [hcomp1], by rw [hcomp1], by rw [hcomp2], by rw [hcomp2],
      by rw [hcomp2], by rw [hcomp3], by rw [hcomp3], ?_, rfl⟩
    rw [hcomp3]
    exact dictLookup_dictStore_self _ _ _
  · have hcomp1 : s1 =
        ⟨.ok dres1,
         dictStore (dexCacheKey page page_size chain) (dres1, t0) d0, 1⟩ := by
      rw [hs1]; simp [get_dex_tokens, hpage, hpsize, hdmiss, hd1]
    have hlook : dictLookup (dexCacheKey page page_size chain) s1.cache =
        some (dres1, t0) := by
      rw [hcomp1]; exact dictLookup_dictStore_self _ _ _
    have hcomp2 : s2 = ⟨.ok dres1, s1.cache, 0⟩ := by
      rw [hs2]; simp [get_dex_tokens, hpage, hpsize, hlook, hfresh]
    have hcomp3 : s3 =
        ⟨.ok dres2,
         dictStore (dexCacheKey page page_size chain) (dres2, t2) s1.cache,
         1⟩ := by
      rw [hs3]
      simp [get_dex_tokens, hpage, hpsize, hlook, not_lt.mpr hstale, hd2]
    refine ⟨by rw [hcomp1], by rw [hcomp1], by rw [hcomp2], by rw [hcomp2],
      by rw [hcomp2], by rw [hcomp3], by rw [hcomp3], ?_⟩
    rw [hcomp3]
    exact dictLookup_dictStore_self _ _ _

/-- Witness for C7 at concrete times, parameters and payloads. -/
theorem C7_cache_witness :
    ((get_cex_tokens true 300 [] 0 (.pyList [])).networkCalls = 1 ∧
     (get_cex_tokens true 300 [] 0 (.pyList [])).result = .ok [] ∧
     (get_cex_tokens true 300
         (get_cex_tokens true 300 [] 0 (.pyList [])).cache 100
         (.pyList [])).networkCalls = 0 ∧
     (get_cex_tokens true 300
         (get_cex_tokens true 300 [] 0 (.pyList [])).cache 100
         (.pyList [])).result = .ok [] ∧
     (get_cex_tokens true 300
         (get_cex_tokens true 300 [] 0 (.pyList [])).cache 100
         (.pyList [])).cache =
       (get_cex_tokens true 300 [] 0 (.pyList [])).cache ∧
     (get_cex_tokens true 300
         (get_cex_tokens true 300 [] 0 (.pyList [])).cache 300
         (.pyList [])).networkCalls = 1 ∧
     (get_cex_tokens true 300
         (get_cex_tokens true 300 [] 0 (.pyList [])).cache 300
         (.pyList [])).result = .ok [] ∧
     dictLookup "cex_tokens"
         (get_cex_tokens true 300
           (get_cex_tokens true 300 [] 0 (.pyList [])).cache 300
           (.pyList [])).cache = some ([], 300) ∧
     clear_cache
         (get_cex_tokens true 300
           (get_cex_tokens true 300 [] 0 (.pyList [])).cache 300
           (.pyList [])).cache = []) ∧
    ((get_dex_tokens (.pyInt 1) (.pyInt 100) none true 300 [] 0
        (.pyDict [])).networkCalls = 1 ∧
     (get_dex_tokens (.pyInt 1) (.pyInt 100) none true 300 [] 0
        (.pyDict [])).result = .ok ⟨.pyInt 0, []⟩ ∧
     (get_dex_tokens (.pyInt 1) (.pyInt 100) none true 300
        (get_dex_tokens (.pyInt 1) (.pyInt 100) none true 300 [] 0
          (.pyDict [])).cache 100 (.pyDict [])).networkCalls = 0 ∧
     (get_dex_tokens (.pyInt 1) (.pyInt 100) none true 300
        (get_dex_tokens (.pyInt 1) (.pyInt 100) none true 300 [] 0
          (.pyDict [])).cache 100 (.pyDict [])).result = .ok ⟨.pyInt 0, []⟩ ∧
     (get_dex_tokens (.pyInt 1) (.pyInt 100) none true 300
        (get_dex_tokens (.pyInt 1) (.pyInt 100) none true 300 [] 0
          (.pyDict [])).cache 100 (.pyDict [])).cache =
       (get_dex_tokens (.pyInt 1) (.pyInt 100) none true 300 [] 0
          (.pyDict [])).cache ∧
     (get_dex_tokens (.pyInt 1) (.pyInt 100) none true 300
        (get_dex_tokens (.pyInt 1) (.pyInt 100) none true 300 [] 0
          (.pyDict [])).cache 300 (.pyDict [])).networkCalls = 1 ∧
     (get_dex_tokens (.pyInt 1) (.pyInt 100) none true 300
        (get_dex_tokens (.pyInt 1) (.pyInt 100) none true 300 [] 0
          (.pyDict [])).cache 300 (.pyDict [])).result = .ok ⟨.pyInt 0, []⟩ ∧
     dictLookup (dexCacheKey (.pyInt 1) (.pyInt 100) none)
        (get_dex_tokens (.pyInt 1) (.pyInt 100) none true 300
          (get_dex_tokens (.pyInt 1) (.pyInt 100) none true 300 [] 0
            (.pyDict [])).cache 300 (.pyDict [])).cache =
       some (⟨.pyInt 0, []⟩, 300)) :=
  C7_cache 300 0 100 300 [] [] [] [] [] _ _ _
    (.pyInt 1) (.pyInt 100) none [] (.pyDict []) (.pyDict [])
    ⟨.pyInt 0, []⟩ ⟨.pyInt 0, []⟩ _ _ _
    rfl rfl rfl (by norm_num) (by norm_num) rfl rfl rfl
    rfl rfl rfl rfl rfl rfl rfl rfl

/-- Length is preserved by the fan-out result writes. -/
theorem foldl_set_length (order : List (Fin n)) (g : Fin n → β)
    (init : List β) :
    (order.foldl (fun acc i => acc.set i.val (g i)) init).length =
      init.length := by
  induction order generalizing init with
  | nil => rfl
  | cons a rest ih => simp [List.foldl_cons, ih, List.length_set]

/-- Slots whose index never completes keep their initial value. -/
theorem foldl_set_getElem_notin (order : List (Fin n)) (g : Fin n → β)
    (init : List β) (j : Fin n) (hj : j ∉ order) :
    (order.foldl (fun acc i => acc.set i.val (g i)) init)[j.val]? =
      init[j.val]? := by
  induction order generalizing init with
  | nil => rfl
  | cons a rest ih =>
    simp only [List.foldl_cons]
    rw [ih _ (fun h => hj (List.mem_cons_of_mem _ h))]
    have hne : a.val ≠ j.val := fun h =>
      hj (by simp [Fin.val_injective h])
    rw [List.getElem?_set_ne hne]

/-- A slot whose index completes holds that thunk's outcome, whatever the
completion order. -/
theorem foldl_set_getElem_mem (order : List (Fin n)) (g : Fin n → β)
    (init : List β) (j : Fin n) (hlen : init.length = n) (hj : j ∈ order) :
    (order.foldl (fun acc i => acc.set i.val (g i)) init)[j.val]? =
      some (g j) := by
  induction order generalizing init with
  | nil => cases hj
  | cons a rest ih =>
    simp only [List.foldl_cons]
    by_cases hr : j ∈ rest
    · exact ih _ (by simp [List.length_set, hlen]) hr
    · have haj : a = j := by
        rcases List.mem_cons.mp hj with h | h
        · exact h.symm
        · exact absurd h hr
      subst haj
      rw [foldl_set_getElem_notin _ _ _ _ hr]
      exact List.getElem?_set_eq_of_lt _ (by rw [hlen]; exact a.isLt)

/-- C9: for every completion order that enumerates all submitted thunks,
`execute_parallel` yields a list of exactly `n` slots in which slot `i`
holds thunk `i`'s outcome — its return value, or the exception it raised,
stored as data rather than propagated — so result order matches submission
order regardless of completion order. -/
theorem C9_execute_parallel (n : Nat) (outcome : Fin n → Except PyExc α)
    (order : List (Fin n)) (hperm : order.Perm (List.finRange n)) :
    (execute_parallel n outcome order).length = n ∧
    ∀ i : Fin n, (execute_parallel n outcome order)[i.val]? =
      some (some (outcome i)) := by
  constructor
  · rw [execute_parallel, foldl_set_length]
    exact List.length_replicate n none
  · intro i
    have hi : i ∈ order := hperm.mem_iff.mpr (List.mem_finRange i)
    exact foldl_set_getElem_mem order _ _ i (List.length_replicate n none) hi

/-- Witness for C9: three thunks of which the middle one raises, completing
in the order 2, 0, 1. -/
theorem C9_execute_parallel_witness :
    (execute_parallel 3
        (fun i => if i.val = 1 then .error .apiError else .ok i.val)
        [⟨2, by omega⟩, ⟨0, by omega⟩, ⟨1, by omega⟩]).length = 3 ∧
    (execute_parallel 3
        (fun i => if i.val = 1 then .error .apiError else .ok i.val)
        [⟨2, by omega⟩, ⟨0, by omega⟩, ⟨1, by omega⟩])[0]? =
      some (some (.ok 0)) ∧
    (execute_parallel 3
        (fun i => if i.val = 1 then .error .apiError else .ok i.val)
        [⟨2, by omega⟩, ⟨0, by omega⟩, ⟨1, by omega⟩])[1]? =
      some (some (.error .apiError)) ∧
    (execute_parallel 3
        (fun i => if i.val = 1 then .error .apiError else .ok i.val)
        [⟨2, by omega⟩, ⟨0, by omega⟩, ⟨1, by omega⟩])[2]? =
      some (some (.ok 2)) :=
  ⟨(C9_execute_parallel 3 _ _ (by decide)).1,
   (C9_execute_parallel 3 _ _ (by decide)).2 ⟨0, by omega⟩,
   (C9_execute_parallel 3 _ _ (by decide)).2 ⟨1, by omega⟩,
   (C9_execute_parallel 3 _ _ (by decide)).2 ⟨2, by omega⟩⟩

end HS


